import Mathlib

/-!
Shallow embedding of the opengate OpenClaw bridge plugin
(packages/openclaw-plugin/src: state.ts, poller.ts, spawner.ts,
ws-client.ts, bootstrap.ts, message-formatter.ts), with theorems
settling specification claims about it.

Machine integers (millisecond timestamps from Date.now()) are modelled
as Int; JS record objects are modelled as association lists keyed by
their string keys; fallible network calls are modelled by passing the
outcome (response or transport error) as an explicit argument.
-/

/-- JSON values, for the structured `context` field of a task
(`Record<string, unknown>` serialised with `JSON.stringify(v, null, 2)`). -/
inductive Json where
  | str (s : String)
  | num (n : Int)
  | bool (b : Bool)
  | null
  | arr (elems : List Json)
  | obj (fields : List (String × Json))
deriving Repr

/-- JSON string-literal quoting (simplified: quotes the text verbatim,
which is exact for the quote-free texts appearing in this development). -/
def Json.quote (s : String) : String := "\x22" ++ s ++ "\x22"

mutual

/-- Rendering of `JSON.stringify(v, null, indent)` at a given current depth. -/
def Json.render (depth : Nat) : Json → String
  | .str s => Json.quote s
  | .num n => toString n
  | .bool b => if b then "true" else "false"
  | .null => "null"
  | .arr [] => "[]"
  | .arr (e :: es) => "[\n" ++ Json.renderElems (depth + 1) (e :: es) ++ "\n"
      ++ String.join (List.replicate depth "  ") ++ "]"
  | .obj [] => "\x7b\x7d"
  | .obj (f :: fs) => "\x7b\n" ++ Json.renderFields (depth + 1) (f :: fs) ++ "\n"
      ++ String.join (List.replicate depth "  ") ++ "\x7d"

/-- Renders the comma-separated, indented elements of a JSON array. -/
def Json.renderElems (depth : Nat) : List Json → String
  | [] => ""
  | [e] => String.join (List.replicate depth "  ") ++ Json.render depth e
  | e :: e2 :: es => String.join (List.replicate depth "  ") ++ Json.render depth e
      ++ ",\n" ++ Json.renderElems depth (e2 :: es)

/-- Renders the comma-separated, indented fields of a JSON object. -/
def Json.renderFields (depth : Nat) : List (String × Json) → String
  | [] => ""
  | [(k, v)] => String.join (List.replicate depth "  ") ++ Json.quote k ++ ": "
      ++ Json.render depth v
  | (k, v) :: f2 :: fs => String.join (List.replicate depth "  ") ++ Json.quote k ++ ": "
      ++ Json.render depth v ++ ",\n" ++ Json.renderFields depth (f2 :: fs)

end

/-- `JSON.stringify(v, null, 2)`. -/
def Json.stringify2 (v : Json) : String := Json.render 0 v

/-- A task as returned by the OpenGate inbox (`OpenGateTask` in poller.ts,
`Task` in bootstrap.ts). Optional fields are `Option`; `context` is the
arbitrary structured record. -/
structure OpenGateTask where
  id : String
  title : String
  description : Option String := none
  tags : Option (List String) := none
  priority : Option String := none
  project_id : Option String := none
  status : Option String := none
  context : Option (List (String × Json)) := none
deriving Repr

/-- Project metadata (`ProjectInfo` in poller.ts / bootstrap.ts). -/
structure ProjectInfo where
  id : String
  name : String
  repo_url : Option String := none
  default_branch : Option String := none
deriving Repr, DecidableEq

/-- The plugin configuration fields used by the poller and spawner
(`OpenGatePluginConfig`). -/
structure OpenGatePluginConfig where
  url : String
  apiKey : String
  agentId : Option String := none
  model : Option String := none
  maxConcurrent : Option Nat := none
  pollIntervalMs : Option Nat := none
  projectsDir : Option String := none
deriving Repr, DecidableEq

/-! ## Spawn state store (state.ts) -/

/-- One record of the spawn state file (`StateEntry` in state.ts). -/
structure StateEntry where
  taskId : String
  sessionKey : String
  spawnedAt : Int
deriving Repr, DecidableEq

/-- The state file contents: the `spawned` record, modelled as an
association list in key order (`StateFile` in state.ts). -/
structure StateFile where
  spawned : List StateEntry
deriving Repr, DecidableEq

/-- `TTL_MS = 24 * 60 * 60 * 1000` — one day, the retention window. -/
def TTL_MS : Int := 24 * 60 * 60 * 1000

/-- In-memory task state (the `data` field of class `TaskState`). -/
structure TaskState where
  data : StateFile
deriving Repr, DecidableEq

/-- `TaskState.load`: parse the backing file; a missing or unparsable file
yields the empty record. The parsed contents (or absence) of the file are
passed in as an argument. -/
def TaskState.load (file : Option StateFile) : StateFile :=
  file.getD ⟨[]⟩

/-- `TaskState.cleanup`: delete every entry with `spawnedAt < Date.now() - TTL_MS`. -/
def TaskState.cleanup (now : Int) (s : TaskState) : TaskState :=
  ⟨⟨s.data.spawned.filter (fun e => !decide (e.spawnedAt < now - TTL_MS))⟩⟩

/-- The `TaskState` constructor: load the file, then run the cleanup pass. -/
def TaskState.init (file : Option StateFile) (now : Int) : TaskState :=
  TaskState.cleanup now ⟨TaskState.load file⟩

/-- `isSpawned(taskId)`: key membership in the `spawned` record. -/
def TaskState.isSpawned (s : TaskState) (taskId : String) : Bool :=
  s.data.spawned.any (fun e => e.taskId == taskId)

/-- `markSpawned(taskId, sessionKey)`: insert or overwrite the record entry
for `taskId` with the current timestamp. -/
def TaskState.markSpawned (s : TaskState) (taskId sessionKey : String) (now : Int) :
    TaskState :=
  ⟨⟨(s.data.spawned.filter (fun e => !(e.taskId == taskId)))
      ++ [⟨taskId, sessionKey, now⟩]⟩⟩

/-- `remove(taskId)`: delete the record entry for `taskId`. -/
def TaskState.remove (s : TaskState) (taskId : String) : TaskState :=
  ⟨⟨s.data.spawned.filter (fun e => !(e.taskId == taskId))⟩⟩

/-- `activeCount()`: the number of keys of the `spawned` record. -/
def TaskState.activeCount (s : TaskState) : Nat :=
  s.data.spawned.length

/-! ## Bootstrap script builder (bootstrap.ts) -/

/-- `repoNameFromUrl`: last non-empty path segment of the URL, with a
trailing `.git` stripped from the pathname; `null` when URL parsing fails.
URL parsing is modelled as: a URL is absolute (parsable) when it contains
`://`; its pathname is everything from the first `/` after the authority. -/
def repoNameFromUrl (repoUrl : String) : Option String :=
  match repoUrl.splitOn "://" with
  | [_scheme, rest] =>
    let pathname :=
      match rest.splitOn "/" with
      | [] => ""
      | _host :: segs => String.intercalate "/" segs
    let stripped := if pathname.endsWith ".git" then pathname.dropRight 4 else pathname
    let segments := (stripped.splitOn "/").filter (fun s => s ≠ "")
    match segments.getLast? with
    | some seg => some seg
    | none => none
  | _ => none

/-- `buildBootstrapPrompt`: pure mapping from a task (plus optional project
metadata and projects directory) to the full instruction script for a
freshly spawned session. Mirrors the template literal of bootstrap.ts. -/
def buildBootstrapPrompt (task : OpenGateTask) (openGateUrl : String) (apiKey : String)
    (project : Option ProjectInfo) (projectsDir : Option String) : String :=
  let tags :=
    match task.tags with
    | some ts => if ts.length > 0 then String.intercalate ", " ts else "none"
    | none => "none"
  let contextBlock :=
    match task.context with
    | some kvs =>
        if kvs.length > 0 then
          "\n## Task Context\n```json\n" ++ Json.stringify2 (Json.obj kvs) ++ "\n```\n"
        else ""
    | none => ""
  let projectId := task.project_id.getD "unknown"
  let defaultBranch := (project.bind (fun p => p.default_branch)).getD "main"
  let wsInfo : Option (String × String) :=
    match project with
    | some p =>
      match p.repo_url with
      | some ru =>
        if ru ≠ "" then
          match repoNameFromUrl ru, projectsDir with
          | some repoName, some pd =>
              if repoName ≠ "" ∧ pd ≠ "" then some (pd ++ "/" ++ repoName, ru) else none
          | _, _ => none
        else none
      | none => none
    | none => none
  let workspaceBlock :=
    match wsInfo with
    | some (workspacePath, repoUrl) =>
        "### Phase 4: Workspace Setup\n"
        ++ "6. **Set up your workspace:**\n"
        ++ "   - `cd " ++ workspacePath ++ "`\n"
        ++ "   - Pull latest: `git fetch origin && git checkout " ++ defaultBranch
        ++ " && git pull origin " ++ defaultBranch ++ "`\n"
        ++ "   - Create a feature branch: `git checkout -b <branch-name>`\n"
        ++ "   - Branch naming: use the task title slugified, e.g. `feat/add-user-auth`"
        ++ " or `fix/null-pointer-in-parser`\n"
        ++ "   - If `" ++ workspacePath ++ "` does not exist, clone it: `git clone "
        ++ repoUrl ++ " " ++ workspacePath ++ "`"
    | none =>
        "### Phase 4: Workspace Setup\n"
        ++ "6. **Set up your workspace:**\n"
        ++ "   - Fetch project info: `GET /api/projects/" ++ projectId
        ++ "` — read `repo_url` and `default_branch`\n"
        ++ "   - Derive the local path from the repo name (under ~/Projects/)\n"
        ++ "   - If the directory doesn\x27t exist, clone it\n"
        ++ "   - Create a feature branch from the default branch"
  "You are an autonomous coding agent assigned a task via OpenGate.\n\n"
  ++ "## Your Task (Summary)\n"
  ++ "**ID:** " ++ task.id ++ "\n"
  ++ "**Title:** " ++ task.title ++ "\n"
  ++ "**Priority:** " ++ task.priority.getD "medium" ++ "\n"
  ++ "**Tags:** " ++ tags ++ "\n"
  ++ "**Project ID:** " ++ projectId ++ "\n\n"
  ++ "**Description:**\n"
  ++ task.description.getD "(no description provided)" ++ "\n"
  ++ contextBlock
  ++ "\n## OpenGate API\n"
  ++ "- **Base URL:** " ++ openGateUrl ++ "\n"
  ++ "- **Auth header:** Authorization: Bearer " ++ apiKey ++ "\n\n"
  ++ "All API calls below use this base URL and auth header.\n\n"
  ++ "## Protocol — Follow This Exactly\n\n"
  ++ "### Phase 1: Claim\n"
  ++ "1. **Claim the task** — `POST /api/tasks/" ++ task.id ++ "/claim`\n\n"
  ++ "### Phase 2: Gather Context\n"
  ++ "Before writing any code, gather all available context:\n\n"
  ++ "2. **Fetch full task details** — `GET /api/tasks/" ++ task.id ++ "`\n"
  ++ "   - Read the `activities` array for comments, instructions, and prior discussion\n"
  ++ "   - Read the `artifacts` array for any attached files or links\n"
  ++ "   - Read the `dependencies` array — if any dependency has status != \"done\","
  ++ " note it as a potential blocker\n"
  ++ "   - Pay close attention to reviewer comments or change requests in activities\n\n"
  ++ "3. **Search project knowledge base** — `GET /api/projects/" ++ projectId
  ++ "/knowledge/search?q=" ++ task.title ++ "`\n"
  ++ "   - Also search by tags if present: `GET /api/projects/" ++ projectId
  ++ "/knowledge/search?tags=" ++ tags ++ "`\n"
  ++ "   - Read any returned entries — they contain architecture decisions, patterns,"
  ++ " gotchas, and conventions for this project\n"
  ++ "   - Follow these conventions in your implementation\n\n"
  ++ "### Phase 3: Plan & Announce\n"
  ++ "4. **Post starting comment** — `POST /api/tasks/" ++ task.id ++ "/activity`\n"
  ++ "   Body: `\x7b\"content\": \"Starting work. Plan: <your plan informed by the"
  ++ " context you gathered, 2-4 sentences>\"\x7d`\n"
  ++ "   - Your plan should reflect what you learned from the knowledge base,"
  ++ " existing comments, and dependencies\n\n"
  ++ workspaceBlock
  ++ "\n\n### Phase 5: Do the Work\n"
  ++ "7. **Implement the solution:**\n"
  ++ "   - Follow patterns and conventions from the knowledge base\n"
  ++ "   - Write clean, tested code\n"
  ++ "   - Run the project\x27s test suite and fix any failures\n"
  ++ "   - Commit your changes with a descriptive message referencing the task\n\n"
  ++ "### Phase 6: Report & Complete\n"
  ++ "8. **Post results comment** — `POST /api/tasks/" ++ task.id ++ "/activity`\n"
  ++ "   Body: `\x7b\"content\": \"<summary of what changed: files modified, approach"
  ++ " taken, test results, commit hash>\"\x7d`\n\n"
  ++ "9. **Write knowledge** (if you discovered something worth sharing) — `PUT"
  ++ " /api/projects/" ++ projectId ++ "/knowledge/<key>`\n"
  ++ "   Body: `\x7b\"title\": \"...\", \"content\": \"...\", \"tags\": [...],"
  ++ " \"category\": \"<architecture|pattern|gotcha|decision|reference>\"\x7d`\n"
  ++ "   - Write entries for: architectural decisions you made, gotchas you"
  ++ " encountered, patterns you established\n\n"
  ++ "10. **Complete the task** — `POST /api/tasks/" ++ task.id ++ "/complete`\n"
  ++ "    Body: `\x7b\"summary\": \"<what was done>\", \"output\": \x7b\"branch\":"
  ++ " \"<branch-name>\", \"commits\": [\"<hash>\"]\x7d\x7d`\n\n"
  ++ "## Handling Blockers\n"
  ++ "If you encounter a blocker that requires human input:\n"
  ++ "- Post a question: `POST /api/tasks/" ++ task.id ++ "/activity` with"
  ++ " `\x7b\"content\": \"BLOCKED: <describe the issue and what you need>\"\x7d`\n"
  ++ "- Block the task: `POST /api/tasks/" ++ task.id ++ "/block` with"
  ++ " `\x7b\"reason\": \"<reason>\"\x7d`\n"
  ++ "- Then stop — do NOT mark it complete.\n\n"
  ++ "If a dependency is not yet done:\n"
  ++ "- Post a comment noting which dependency is blocking you\n"
  ++ "- Block the task with the dependency info\n"
  ++ "- Stop and let the orchestrator handle sequencing\n\n"
  ++ "## Rules\n"
  ++ "- Always work on a feature branch, never commit directly to main\n"
  ++ "- Run tests before completing — do not complete with failing tests\n"
  ++ "- Respect existing patterns found in the knowledge base\n"
  ++ "- Keep commits atomic and descriptive\n\n"
  ++ "Now begin. Start with Phase 1: claim the task."

/-! ## Session spawn client (spawner.ts) -/

/-- Result of `spawnTaskSession` (`SpawnResult` in spawner.ts). -/
inductive SpawnResult where
  | ok (sessionKey : String)
  | err (error : String)
deriving Repr, DecidableEq

/-- Whether a `SpawnResult` is the success variant (`result.ok`). -/
def SpawnResult.isOk : SpawnResult → Bool
  | .ok _ => true
  | .err _ => false

/-- Outcome of the POST to the local `hooks/agent` endpoint: either an HTTP
response (status and body text) or a transport failure with its message. -/
inductive HostOutcome where
  | response (status : Nat) (body : String)
  | netError (msg : String)
deriving Repr, DecidableEq

/-- The fixed error text returned when `hooks.token` is not configured. -/
def hooksTokenMissingError : String :=
  "[opengate] hooks.token not configured in OpenClaw config. "
  ++ "Add hooks.enabled=true and hooks.token=<secret> to enable task spawning."

/-- `spawnTaskSession`: POST the bootstrap message to the local
`hooks/agent` endpoint. The host-local hooks token (read from the OpenClaw
config) and the outcome of the request are explicit arguments; when the
token is absent the function returns a configuration error without issuing
any request. Never throws: every path yields a structured `SpawnResult`. -/
def spawnTaskSession (taskId : String) (_message : String)
    (pluginCfg : OpenGatePluginConfig) (hooksToken : Option String)
    (host : HostOutcome) : SpawnResult :=
  match hooksToken with
  | none => .err hooksTokenMissingError
  | some _tok =>
    let sessionKey := "opengate-task:" ++ taskId
    let _agentId := pluginCfg.agentId.getD "main"
    match host with
    | .response status body =>
        if status == 202 || status == 200 then .ok sessionKey
        else .err ("[opengate] hooks/agent returned HTTP " ++ toString status ++ ": " ++ body)
    | .netError msg => .err ("[opengate] failed to reach hooks/agent: " ++ msg)

/-- Whether a call to `spawnTaskSession` issues the HTTP request at all:
the request is sent exactly when the hooks token is configured. -/
def spawnRequestIssued (hooksToken : Option String) : Bool :=
  hooksToken.isSome

/-! ## Inbox fetch and the orchestrator poll cycle (poller.ts) -/

/-- Response body of `GET /api/agents/me/inbox` (`InboxResponse`). -/
structure InboxResponse where
  todo_tasks : Option (List OpenGateTask) := none
  in_progress_tasks : Option (List OpenGateTask) := none
deriving Repr

/-- Outcome of the inbox HTTP request: a response with its status and parsed
body, or a transport failure. -/
inductive InboxOutcome where
  | response (status : Nat) (body : InboxResponse)
  | netError (msg : String)
deriving Repr

/-- `resp.ok` for an HTTP status: the 200–299 range. -/
def respOk (status : Nat) : Bool :=
  200 ≤ status && status ≤ 299

/-- `fetchInbox`: throw on a non-ok status or transport failure, otherwise
return `body.todo_tasks ?? []`. The thrown error is modelled as `Except.error`. -/
def fetchInbox (outcome : InboxOutcome) : Except String (List OpenGateTask) :=
  match outcome with
  | .netError msg => .error msg
  | .response status body =>
      if respOk status then .ok (body.todo_tasks.getD [])
      else .error ("OpenGate inbox returned HTTP " ++ toString status)

/-- Observable actions of one orchestrator poll cycle. -/
inductive PollEffect where
  | spawnAttempt (taskId : String) (prompt : String)
  | httpSpawnRequest (taskId : String)
  | marked (taskId : String)
deriving Repr, DecidableEq

/-- Task identifiers for which `spawnTaskSession` was invoked in a cycle. -/
def attemptIds (effs : List PollEffect) : List String :=
  effs.filterMap (fun e =>
    match e with
    | .spawnAttempt taskId _ => some taskId
    | _ => none)

/-- Task identifiers for which an HTTP spawn request was actually POSTed. -/
def requestIds (effs : List PollEffect) : List String :=
  effs.filterMap (fun e =>
    match e with
    | .httpSpawnRequest taskId => some taskId
    | _ => none)

/-- The project cache of the poller (`projectCache`, a `Map` keyed by id). -/
def ProjectCache := List (String × ProjectInfo)

/-- `resolveProject`: cache lookup, else fetch (outcome supplied by the
environment `projEnv`, `null` standing for any fetch failure) and cache on
success. -/
def resolveProject (cache : List (String × ProjectInfo))
    (projEnv : String → Option ProjectInfo) (projectId : String) :
    Option ProjectInfo × List (String × ProjectInfo) :=
  match cache.lookup projectId with
  | some p => (some p, cache)
  | none =>
    match projEnv projectId with
    | some p => (some p, cache ++ [(projectId, p)])
    | none => (none, cache)

/-- One iteration ledger of the poll loop: final task state, final project
cache, and the effects emitted, in order. -/
structure CycleResult where
  state : TaskState
  cache : List (String × ProjectInfo)
  effects : List PollEffect
deriving Repr

/-- The `for (const task of tasks)` loop body of `OpenGatePoller.poll`,
including `spawnTask`. Per task: break when `activeCount()` has reached the
ceiling, skip tasks already marked spawned, otherwise resolve the project,
build the bootstrap prompt, call `spawnTaskSession` and on success
`markSpawned`. The `running` flag is `true` for a cycle that runs to
completion (stopping mid-cycle is modelled with the transport lifecycle
states below). -/
def pollLoop (pluginCfg : OpenGatePluginConfig) (maxConcurrent : Nat)
    (hooksToken : Option String) (projEnv : String → Option ProjectInfo)
    (host : String → HostOutcome) (now : Int) :
    List OpenGateTask → TaskState → List (String × ProjectInfo) → CycleResult
  | [], st, cache => ⟨st, cache, []⟩
  | task :: rest, st, cache =>
    if st.activeCount ≥ maxConcurrent then ⟨st, cache, []⟩
    else if st.isSpawned task.id then
      pollLoop pluginCfg maxConcurrent hooksToken projEnv host now rest st cache
    else
      let projRes :=
        match task.project_id with
        | some pid => resolveProject cache projEnv pid
        | none => (none, cache)
      let prompt := buildBootstrapPrompt task pluginCfg.url pluginCfg.apiKey projRes.1
        pluginCfg.projectsDir
      let effs := PollEffect.spawnAttempt task.id prompt ::
        (if spawnRequestIssued hooksToken then [PollEffect.httpSpawnRequest task.id] else [])
      match spawnTaskSession task.id prompt pluginCfg hooksToken (host task.id) with
      | .err _ =>
        let r := pollLoop pluginCfg maxConcurrent hooksToken projEnv host now rest st projRes.2
        ⟨r.state, r.cache, effs ++ r.effects⟩
      | .ok sessionKey =>
        let st1 := st.markSpawned task.id sessionKey now
        let r := pollLoop pluginCfg maxConcurrent hooksToken projEnv host now rest st1 projRes.2
        ⟨r.state, r.cache, effs ++ [PollEffect.marked task.id] ++ r.effects⟩

/-- One cycle of `OpenGatePoller.poll`: skip the cycle entirely when at
capacity; fetch the inbox (outcome supplied as `inbox`), logging and
skipping the cycle on failure; return early on an empty list; otherwise run
the spawn loop over the fetched tasks. -/
def pollCycle (pluginCfg : OpenGatePluginConfig) (hooksToken : Option String)
    (st : TaskState) (cache : List (String × ProjectInfo))
    (inbox : InboxOutcome) (projEnv : String → Option ProjectInfo)
    (host : String → HostOutcome) (now : Int) : CycleResult :=
  let maxConcurrent := pluginCfg.maxConcurrent.getD 3
  if st.activeCount ≥ maxConcurrent then ⟨st, cache, []⟩
  else
    match fetchInbox inbox with
    | .error _ => ⟨st, cache, []⟩
    | .ok tasks =>
      if tasks.length == 0 then ⟨st, cache, []⟩
      else pollLoop pluginCfg maxConcurrent hooksToken projEnv host now tasks st cache

/-! ## Message formatter (message-formatter.ts) -/

/-- An OpenGate real-time event (`OpenGateEvent`). The index signature is
represented by the one extra key the formatter reads (`repo_url`). -/
structure OpenGateEvent where
  type : String
  task_id : Option String := none
  task_title : Option String := none
  project_id : Option String := none
  from_agent : Option String := none
  reason : Option String := none
  summary : Option String := none
  content : Option String := none
  priority : Option String := none
  tags : Option (List String) := none
  repo_url : Option String := none
deriving Repr, DecidableEq

/-- JS truthiness of an optional string: present and non-empty. -/
def jsTruthy : Option String → Bool
  | some s => s ≠ ""
  | none => false

/-- A conditional line `cond ? text : null` guarded by JS truthiness. -/
def truthyLine (o : Option String) (f : String → String) : Option String :=
  match o with
  | some s => if s ≠ "" then some (f s) else none
  | none => none

/-- The ` (task: …)` suffix built from `task_id`, preferring `task_title`. -/
def taskRefOf (e : OpenGateEvent) : String :=
  match e.task_id with
  | some tid => if tid ≠ "" then " (task: " ++ (e.task_title.getD tid) ++ ")" else ""
  | none => ""

/-- `formatEvent`: one OpenGate event rendered as a multi-line advisory
message, switching on the event type, with `null` lines filtered out. -/
def formatEvent (e : OpenGateEvent) : String :=
  let taskRef := taskRefOf e
  if e.type == "task.assigned" then
    String.intercalate "\n" (List.filterMap id
      [some ("New task assigned to you" ++ taskRef),
       truthyLine e.priority (fun p => "Priority: " ++ p),
       (match e.tags with
        | some ts => if ts.length ≠ 0 then some ("Tags: " ++ String.intercalate ", " ts) else none
        | none => none),
       truthyLine e.repo_url (fun r => "Repo: " ++ r),
       some "",
       some "Next steps:",
       some "1. Use `get_task` to read the full task details",
       (if jsTruthy e.project_id then
          some "2. Use `get_workspace_info` to set up project workspace" else none),
       some "3. Use `search_knowledge` to check for relevant project knowledge",
       some "4. Use `claim_task` to start working on it",
       some "5. Use `post_comment` to share your planned approach"])
  else if e.type == "task.comment" then
    String.intercalate "\n" (List.filterMap id
      [some ("New comment on task" ++ taskRef),
       truthyLine e.from_agent (fun a => "From: " ++ a),
       truthyLine e.content (fun c => "> " ++ c),
       some "",
       some "Use `get_task` to see the full task context."])
  else if e.type == "task.dependency_ready" then
    String.intercalate "\n"
      ["Dependency resolved for task" ++ taskRef,
       "A blocking dependency has been completed. This task may now be ready to claim.",
       "",
       "Next steps:",
       "1. Use `get_task` to review the task",
       "2. Use `list_dependencies` to verify all dependencies are met",
       "3. Use `claim_task` to start working if ready"]
  else if e.type == "task.review_requested" then
    String.intercalate "\n" (List.filterMap id
      [some ("Review requested for task" ++ taskRef),
       truthyLine e.from_agent (fun a => "From: " ++ a),
       truthyLine e.summary (fun sm => "Summary: " ++ sm),
       some "",
       some "Next steps:",
       some "1. Use `get_task` to review the task and its output",
       some "2. Approve with `approve_task` or request changes with `request_changes`"])
  else if e.type == "task.handoff" then
    String.intercalate "\n" (List.filterMap id
      [some ("Task handed off to you" ++ taskRef),
       truthyLine e.from_agent (fun a => "From: " ++ a),
       truthyLine e.summary (fun sm => "Context: " ++ sm),
       some "",
       some "Next steps:",
       some "1. Use `get_task` to read the full task and handoff context",
       some "2. Use `claim_task` to accept the handoff",
       some "3. Use `post_comment` to acknowledge and share your plan"])
  else if e.type == "task.unblocked" then
    String.intercalate "\n" (List.filterMap id
      [some ("Task unblocked" ++ taskRef),
       truthyLine e.reason (fun r => "Reason: " ++ r),
       some "",
       some "The task has been unblocked and moved back to your queue.",
       some "Use `get_task` to review and continue working on it."])
  else if e.type == "task.changes_requested" then
    String.intercalate "\n" (List.filterMap id
      [some ("Changes requested on task" ++ taskRef),
       truthyLine e.from_agent (fun a => "From: " ++ a),
       truthyLine e.content (fun c => "Feedback: " ++ c),
       some "",
       some "Next steps:",
       some "1. Use `get_task` to read the review feedback",
       some "2. Address the requested changes",
       some "3. Use `complete_task` to resubmit when ready"])
  else
    String.intercalate "\n" (List.filter (fun line => line ≠ "")
      ["OpenGate event: " ++ e.type ++ taskRef,
       (e.summary.getD (e.content.getD "")),
       "",
       "Use `check_inbox` to see your current task queue."])

/-- A notification wrapping an event (`Notification`). -/
structure Notification where
  id : String
  event_type : String
  payload : OpenGateEvent
  read : Bool
  created_at : String
deriving Repr, DecidableEq

/-- The digest count-header line of `formatNotificationSummary`. -/
def notifHeader (n : Nat) : String :=
  "You have " ++ toString n ++ " unread notification"
  ++ (if n == 1 then "" else "s") ++ " from OpenGate:"

/-- The closing call-to-action line of `formatNotificationSummary`. -/
def notifClosing : String :=
  "Use `check_inbox` for a full overview of your task queue."

/-- The accumulating `lines.push` loop of `formatNotificationSummary`. -/
def summaryLines (ns : List Notification) : List String :=
  ns.foldl
    (fun acc n => acc ++ ["--- " ++ n.event_type ++ " ---", formatEvent n.payload, ""])
    [notifHeader ns.length, ""]

/-- `formatNotificationSummary`: the empty string for an empty batch,
otherwise the count header, one block per notification, and the closing
call-to-action line, joined by newlines. -/
def formatNotificationSummary (ns : List Notification) : String :=
  if ns.length == 0 then ""
  else String.intercalate "\n" (summaryLines ns ++ [notifClosing])

/-! ## Push transport (ws-client.ts) -/

/-- `INITIAL_BACKOFF_MS = 1000`, the backoff floor. -/
def INITIAL_BACKOFF_MS : Nat := 1000

/-- `MAX_BACKOFF_MS = 60000`, the backoff ceiling. -/
def MAX_BACKOFF_MS : Nat := 60000

/-- `BACKOFF_MULTIPLIER = 2`. -/
def BACKOFF_MULTIPLIER : Nat := 2

/-- Mutable fields of `WsClient`: the `running` flag, the current backoff
delay, whether a reconnect timeout is pending, whether the keepalive ping
interval is active, and whether a connection handle (`ws`) exists. -/
structure WsState where
  running : Bool
  backoffMs : Nat
  reconnectTimer : Bool
  pingTimer : Bool
  hasWs : Bool
deriving Repr, DecidableEq

/-- Field state of a freshly constructed `WsClient`. -/
def WsState.initial : WsState :=
  ⟨false, INITIAL_BACKOFF_MS, false, false, false⟩

/-- Externally visible actions of the push transport. -/
inductive WsEffect where
  | connectAttempt
  | subscribeSent
  | handlerInvoked (eventType : String)
  | reconnectScheduled (delayMs : Nat)
  | closeSent (code : Nat)
  | pingSent
deriving Repr, DecidableEq

/-- `scheduleReconnect`: no-op when stopped or when a reconnect timeout is
already pending; otherwise arm the timer for the current backoff delay. -/
def scheduleReconnect (s : WsState) : WsState × List WsEffect :=
  if !s.running then (s, [])
  else if s.reconnectTimer then (s, [])
  else ({ s with reconnectTimer := true }, [.reconnectScheduled s.backoffMs])

/-- `connect`: no-op when stopped; otherwise open a new connection handle. -/
def wsConnect (s : WsState) : WsState × List WsEffect :=
  if !s.running then (s, [])
  else ({ s with hasWs := true }, [.connectAttempt])

/-- `cleanup`: cancel the keepalive probe and clear the connection handle. -/
def wsCleanup (s : WsState) : WsState :=
  { s with pingTimer := false, hasWs := false }

/-- External events driving the `WsClient` state machine: socket events
(open, message with its parse result, close, error) and timer firings. -/
inductive WsEvent where
  | opened
  | message (parsed : Option OpenGateEvent)
  | closed (code : Nat)
  | errored
  | reconnectFire
  | pingFire
deriving Repr, DecidableEq

/-- One step of the `WsClient` event handlers. `opened` resets the backoff
to the floor, sends the subscribe message and starts the keepalive probe;
`message` invokes the handler unless parsing failed or the event is a
keepalive echo; `closed`/`errored` run cleanup then schedule a reconnect;
`reconnectFire` clears the timer, doubles the backoff up to the ceiling and
reconnects; `pingFire` pings while the connection is open. -/
def wsStep (s : WsState) : WsEvent → WsState × List WsEffect
  | .opened =>
      ({ s with backoffMs := INITIAL_BACKOFF_MS, pingTimer := true }, [.subscribeSent])
  | .message parsed =>
      match parsed with
      | some e =>
          if e.type ≠ "" && e.type ≠ "pong" then (s, [.handlerInvoked e.type])
          else (s, [])
      | none => (s, [])
  | .closed _ => scheduleReconnect (wsCleanup s)
  | .errored => scheduleReconnect (wsCleanup s)
  | .reconnectFire =>
      wsConnect { s with
        reconnectTimer := false,
        backoffMs := min (s.backoffMs * BACKOFF_MULTIPLIER) MAX_BACKOFF_MS }
  | .pingFire => (s, if s.hasWs then [.pingSent] else [])

/-- `start()`: no-op when already running, otherwise set `running` and connect. -/
def wsStart (s : WsState) : WsState × List WsEffect :=
  if s.running then (s, [])
  else wsConnect { s with running := true }

/-- `stop()`: clear the running flag, cancel the reconnect timeout and the
keepalive probe, and close the connection with code 1000 if one is open. -/
def wsStop (s : WsState) : WsState × List WsEffect :=
  (⟨false, s.backoffMs, false, false, false⟩,
    if s.hasWs then [WsEffect.closeSent 1000] else [])

/-- Whether an event can physically be delivered in a given state: socket
events require a live connection handle, timer firings require the
corresponding timer to be armed. -/
def canFire (s : WsState) : WsEvent → Bool
  | .opened => s.hasWs
  | .message _ => s.hasWs
  | .closed _ => s.hasWs
  | .errored => s.hasWs
  | .reconnectFire => s.reconnectTimer
  | .pingFire => s.pingTimer

/-- Run a sequence of events through `wsStep`, collecting all effects. -/
def runEvents (s : WsState) : List WsEvent → WsState × List WsEffect
  | [] => (s, [])
  | e :: es =>
    let r1 := wsStep s e
    let r2 := runEvents r1.1 es
    (r2.1, r1.2 ++ r2.2)

/-- A trace is valid from a state when each successive event can fire in
the state reached so far. -/
def ValidTrace (s : WsState) : List WsEvent → Bool
  | [] => true
  | e :: es => canFire s e && ValidTrace (wsStep s e).1 es

/-- The reconnect delays appearing in an effect list, in order. -/
def reconnectDelays (effs : List WsEffect) : List Nat :=
  effs.filterMap (fun eff =>
    match eff with
    | .reconnectScheduled d => some d
    | _ => none)

/-- Whether a trace contains no successful-connection (`open`) event. -/
def noOpenEvent (tr : List WsEvent) : Bool :=
  tr.all (fun e =>
    match e with
    | .opened => false
    | _ => true)

/-! ## Poller lifecycle (poller.ts `start`/`stop`) -/

/-- Lifecycle fields of `OpenGatePoller`: the `running` flag and whether the
poll interval timer is set. -/
structure PollerLifecycle where
  running : Bool
  timer : Bool
deriving Repr, DecidableEq

/-- Externally visible actions of the poller lifecycle. -/
inductive PollerEffect where
  | intervalCleared
deriving Repr, DecidableEq

/-- `OpenGatePoller.stop()`: clear the running flag, and clear the interval
timer if one is set. -/
def pollerStop (p : PollerLifecycle) : PollerLifecycle × List PollerEffect :=
  (⟨false, false⟩, if p.timer then [.intervalCleared] else [])

/-! ## Shared concrete fixtures -/

/-- A representative plugin configuration with default concurrency. -/
def sampleCfg : OpenGatePluginConfig := { url := "https://og.example", apiKey := "k" }

/-- A plugin configuration with a concurrency ceiling of 1. -/
def cfgCeil1 : OpenGatePluginConfig :=
  { url := "https://og.example", apiKey := "k", maxConcurrent := some 1 }

/-- Inbox task `{id:"t1"}`. -/
def t1Task : OpenGateTask := { id := "t1", title := "Task 1" }

/-- Inbox task `{id:"t2"}`. -/
def t2Task : OpenGateTask := { id := "t2", title := "Task 2" }

/-- An in-progress task, for the inbox in-progress bucket. -/
def inProgressTask : OpenGateTask :=
  { id := "ip1", title := "In progress", status := some "in_progress" }

/-- The empty spawn state store. -/
def emptyTaskState : TaskState := ⟨⟨[]⟩⟩

/-- A local host that accepts every spawn request with HTTP 202. -/
def hostAccepts : String → HostOutcome := fun _ => .response 202 ""

/-! ## Helper lemmas -/

/-- Negated strict comparison, as a decide-level rewrite. -/
theorem not_decide_lt (a b : Int) : (!decide (a < b)) = decide (b ≤ a) := by
  by_cases h : a < b
  · simp [h, not_le.mpr h]
  · simp [h, le_of_not_lt h]

/-- The spawn state store after construction marks exactly the file entries
whose age is within the retention window. -/
theorem isSpawned_init_eq (file : StateFile) (now : Int) (t : String) :
    (TaskState.init (some file) now).isSpawned t =
      file.spawned.any (fun e => e.taskId == t && decide (now - TTL_MS ≤ e.spawnedAt)) := by
  unfold TaskState.init TaskState.cleanup TaskState.load TaskState.isSpawned
  simp only [Option.getD_some, List.any_filter]
  congr 1
  funext e
  rw [not_decide_lt, Bool.and_comm]

/-- `markSpawned` never clears an `isSpawned` mark. -/
theorem isSpawned_markSpawned_mono (st : TaskState) (t t2 sk : String) (now : Int)
    (h : st.isSpawned t = true) : (st.markSpawned t2 sk now).isSpawned t = true := by
  unfold TaskState.isSpawned TaskState.markSpawned at *
  simp only [List.any_append, List.any_cons, List.any_nil, Bool.or_eq_true,
    Bool.or_false] at *
  by_cases ht : t2 = t
  · right
    simp [ht]
  · left
    rw [List.any_eq_true] at h ⊢
    obtain ⟨e, he, heq⟩ := h
    refine ⟨e, List.mem_filter.mpr ⟨he, ?_⟩, heq⟩
    have het : e.taskId = t := by simpa using heq
    have hne : ¬ t = t2 := fun hc => ht hc.symm
    simp [het, hne]

/-! ## Claim theorems -/

/-- C8: at Spawn State Store construction, every record whose `spawnedAt` is
older than the 24-hour retention window is purged — membership after
construction is exactly membership of an in-window file entry — and in
particular a record spawned 25 hours in the past is absent (`isSpawned`
false) while a record 23 hours old is retained. -/
theorem taskState_init_purges_stale :
    (∀ (file : StateFile) (now : Int) (t : String),
      (TaskState.init (some file) now).isSpawned t =
        file.spawned.any (fun e => e.taskId == t && decide (now - TTL_MS ≤ e.spawnedAt))) ∧
    ((TaskState.init (some ⟨[⟨"t1", "sk", 1700000000000 - 25 * 3600 * 1000⟩]⟩)
        1700000000000).isSpawned "t1" = false) ∧
    ((TaskState.init (some ⟨[⟨"t2", "sk", 1700000000000 - 23 * 3600 * 1000⟩]⟩)
        1700000000000).isSpawned "t2" = true) :=
  ⟨isSpawned_init_eq, by decide, by decide⟩

/-- C5 counterexample: HTTP 201 lies in the 200–202 range, yet the session
spawn client reports a structured failure for it, so "success iff the host
responds with a status in the 200–202 range" is false at status 201. -/
theorem spawn_status_201_rejected :
    (spawnTaskSession "t1" "msg" sampleCfg (some "tok")
        (.response 201 "Created")).isOk = false
    ∧ 200 ≤ 201 ∧ 201 ≤ 202 :=
  ⟨by decide, by decide, by decide⟩

/-- C5 (amended): the session spawn client succeeds, carrying the
synthesized session key `opengate-task:<taskId>`, exactly when the hooks
token is configured and the local host responds with status 200 or 202;
every other outcome (other statuses, transport failure, missing token)
yields a structured failure, and the function is total (never throws). -/
theorem spawnTaskSession_ok_iff :
    ∀ (taskId msg : String) (cfg : OpenGatePluginConfig) (token : Option String)
      (host : HostOutcome),
      (spawnTaskSession taskId msg cfg token host
          = SpawnResult.ok ("opengate-task:" ++ taskId)
        ↔ token.isSome = true ∧ ∃ body,
            host = HostOutcome.response 200 body ∨ host = HostOutcome.response 202 body) ∧
      (spawnTaskSession taskId msg cfg token host
          = SpawnResult.ok ("opengate-task:" ++ taskId)
        ∨ ∃ e, spawnTaskSession taskId msg cfg token host = SpawnResult.err e) := by
  intro taskId msg cfg token host
  constructor
  · constructor
    · intro h
      match token, host with
      | none, _ => simp [spawnTaskSession] at h
      | some tok, .netError m => simp [spawnTaskSession] at h
      | some tok, .response s b =>
        by_cases hs : (s == 202 || s == 200) = true
        · refine ⟨rfl, b, ?_⟩
          have := hs
          simp only [Bool.or_eq_true, beq_iff_eq] at this
          rcases this with h202 | h200
          · exact Or.inr (by rw [h202])
          · exact Or.inl (by rw [h200])
        · simp [spawnTaskSession, hs] at h
    · rintro ⟨htok, body, hor⟩
      match token with
      | some tok =>
        rcases hor with h200 | h202
        · rw [h200]; simp [spawnTaskSession]
        · rw [h202]; simp [spawnTaskSession]
  · match token, host with
    | none, _ => exact Or.inr ⟨hooksTokenMissingError, by simp [spawnTaskSession]⟩
    | some tok, .netError m =>
      exact Or.inr ⟨"[opengate] failed to reach hooks/agent: " ++ m,
        by simp [spawnTaskSession]⟩
    | some tok, .response s b =>
      by_cases hs : (s == 202 || s == 200) = true
      · exact Or.inl (by simp [spawnTaskSession, hs])
      · exact Or.inr ⟨"[opengate] hooks/agent returned HTTP " ++ toString s ++ ": " ++ b,
          by simp [spawnTaskSession, hs]⟩

/-- C9: the bootstrap script builder is deterministic — identical task,
base URL, API key, project info and projects-directory inputs produce
byte-identical output; the builder takes no clock or randomness input. -/
theorem buildBootstrapPrompt_deterministic :
    ∀ (t1 t2 : OpenGateTask) (u1 u2 k1 k2 : String) (p1 p2 : Option ProjectInfo)
      (d1 d2 : Option String),
      t1 = t2 → u1 = u2 → k1 = k2 → p1 = p2 → d1 = d2 →
      buildBootstrapPrompt t1 u1 k1 p1 d1 = buildBootstrapPrompt t2 u2 k2 p2 d2 := by
  intro t1 t2 u1 u2 k1 k2 p1 p2 d1 d2 ht hu hk hp hd
  rw [ht, hu, hk, hp, hd]

/-- Witness for C9: the determinism theorem applied at a concrete task. -/
theorem buildBootstrapPrompt_deterministic_witness :
    buildBootstrapPrompt t1Task "https://og.example" "k" none none
      = buildBootstrapPrompt t1Task "https://og.example" "k" none none :=
  buildBootstrapPrompt_deterministic t1Task t1Task "https://og.example" "https://og.example"
    "k" "k" none none none none rfl rfl rfl rfl rfl

/-- The accumulating push loop of the digest equals the flat concatenation
of the per-notification blocks. -/
theorem foldl_push_eq_flatMap (f : Notification → List String) :
    ∀ (l : List Notification) (init : List String),
      l.foldl (fun acc n => acc ++ f n) init = init ++ l.flatMap f := by
  intro l
  induction l with
  | nil => intro init; simp
  | cons n rest ih => intro init; simp [ih]

/-- C10: the empty notification batch formats to the empty string — no
digest header, no closing call-to-action — while every non-empty batch
formats to a digest with a count header, one block per notification
(separator line, formatted event, blank line) and the closing
call-to-action line. -/
theorem formatNotificationSummary_empty_vs_digest :
    (formatNotificationSummary [] = "") ∧
    (∀ ns : List Notification, ns ≠ [] →
      formatNotificationSummary ns =
        String.intercalate "\n"
          (["You have " ++ toString ns.length ++ " unread notification"
              ++ (if ns.length == 1 then "" else "s") ++ " from OpenGate:", ""]
            ++ ns.flatMap
                (fun n => ["--- " ++ n.event_type ++ " ---", formatEvent n.payload, ""])
            ++ ["Use `check_inbox` for a full overview of your task queue."])) := by
  constructor
  · rfl
  · intro ns hne
    have hlen : ¬ (ns.length = 0) := fun h => hne (List.length_eq_zero.mp h)
    simp only [formatNotificationSummary, summaryLines, foldl_push_eq_flatMap,
      notifHeader, notifClosing, beq_iff_eq, if_neg hlen]

/-- A sample notification for the digest witness. -/
def sampleNotification : Notification :=
  { id := "n1", event_type := "task.comment",
    payload := { type := "task.comment", task_id := some "t1", content := some "hi" },
    read := false, created_at := "2024-01-01" }

/-- Witness for C10: the digest structure at a concrete one-element batch. -/
theorem formatNotificationSummary_empty_vs_digest_witness :
    formatNotificationSummary [sampleNotification] =
      String.intercalate "\n"
        (["You have " ++ toString ([sampleNotification].length)
            ++ " unread notification"
            ++ (if [sampleNotification].length == 1 then "" else "s")
            ++ " from OpenGate:", ""]
          ++ [sampleNotification].flatMap
              (fun n => ["--- " ++ n.event_type ++ " ---", formatEvent n.payload, ""])
          ++ ["Use `check_inbox` for a full overview of your task queue."]) :=
  formatNotificationSummary_empty_vs_digest.2 [sampleNotification] (by simp)

/-- C7 counterexample: an inbox response listing a task only in the
in-progress bucket yields a fetched task list without it — the fetched list
is `todo_tasks ?? []`, not the union of todo and in-progress tasks. -/
theorem fetchInbox_ignores_in_progress :
    fetchInbox (.response 200
        { todo_tasks := some [], in_progress_tasks := some [inProgressTask] }) = .ok []
    ∧ fetchInbox (.response 200
        { todo_tasks := some [t1Task], in_progress_tasks := some [inProgressTask] })
          = .ok [t1Task] :=
  ⟨rfl, rfl⟩

/-- C7 (amended): each cycle fetches `todo_tasks ?? []` only — the todo
bucket of the inbox response, in-progress tasks being ignored — and on
inbox fetch failure (non-ok status or transport error) the cycle is skipped
with no spawn requests and no state change. -/
theorem fetchInbox_todo_only_skip_on_failure :
    (∀ (status : Nat) (body : InboxResponse), respOk status = true →
        fetchInbox (.response status body) = .ok (body.todo_tasks.getD [])) ∧
    (∀ (outcome : InboxOutcome) (msg : String) (cfg : OpenGatePluginConfig)
        (token : Option String) (st : TaskState) (cache : List (String × ProjectInfo))
        (projEnv : String → Option ProjectInfo) (host : String → HostOutcome) (now : Int),
        fetchInbox outcome = .error msg →
        pollCycle cfg token st cache outcome projEnv host now = ⟨st, cache, []⟩) := by
  constructor
  · intro status body h
    simp [fetchInbox, h]
  · intro outcome msg cfg token st cache projEnv host now herr
    unfold pollCycle
    by_cases hc : st.activeCount ≥ cfg.maxConcurrent.getD 3
    · simp [hc]
    · simp [hc, herr]

/-- Witness for C7: the todo-only fetch at a concrete ok response, and the
skipped cycle at a concrete transport failure. -/
theorem fetchInbox_todo_only_skip_on_failure_witness :
    fetchInbox (.response 200
        { todo_tasks := some [t2Task], in_progress_tasks := none }) = .ok [t2Task]
    ∧ pollCycle sampleCfg (some "tok") emptyTaskState [] (.netError "ECONNREFUSED")
        (fun _ => none) hostAccepts 0 = ⟨emptyTaskState, [], []⟩ :=
  ⟨fetchInbox_todo_only_skip_on_failure.1 200
      { todo_tasks := some [t2Task], in_progress_tasks := none } (by decide),
    fetchInbox_todo_only_skip_on_failure.2 (.netError "ECONNREFUSED") "ECONNREFUSED"
      sampleCfg (some "tok") emptyTaskState [] (fun _ => none) hostAccepts 0 rfl⟩

/-- `attemptIds` distributes over effect-list concatenation. -/
theorem attemptIds_append (l1 l2 : List PollEffect) :
    attemptIds (l1 ++ l2) = attemptIds l1 ++ attemptIds l2 :=
  List.filterMap_append l1 l2 _

/-- `requestIds` distributes over effect-list concatenation. -/
theorem requestIds_append (l1 l2 : List PollEffect) :
    requestIds (l1 ++ l2) = requestIds l1 ++ requestIds l2 :=
  List.filterMap_append l1 l2 _

/-- The effects emitted for one attempted task contribute exactly that task
to the attempt ledger. -/
theorem attemptIds_effs (tid p : String) (token : Option String) :
    attemptIds (PollEffect.spawnAttempt tid p ::
        (if spawnRequestIssued token then [PollEffect.httpSpawnRequest tid] else []))
      = [tid] := by
  cases token <;> simp [attemptIds, spawnRequestIssued]

/-- The effects emitted for one attempted task contribute that task to the
HTTP-request ledger exactly when the hooks token is configured. -/
theorem requestIds_effs (tid p : String) (token : Option String) :
    requestIds (PollEffect.spawnAttempt tid p ::
        (if spawnRequestIssued token then [PollEffect.httpSpawnRequest tid] else []))
      = (if token.isSome then [tid] else []) := by
  cases token <;> simp [requestIds, spawnRequestIssued]

/-- A mark effect contributes no spawn attempt. -/
theorem attemptIds_marked (tid : String) : attemptIds [PollEffect.marked tid] = [] := rfl

/-- A mark effect contributes no HTTP spawn request. -/
theorem requestIds_marked (tid : String) : requestIds [PollEffect.marked tid] = [] := rfl

/-- A task already marked spawned when the loop starts is neither attempted
nor requested by the loop, whatever the task list, capacity, token, project
environment or host behaviour. -/
theorem pollLoop_skips_spawned (cfg : OpenGatePluginConfig) (maxC : Nat)
    (token : Option String) (projEnv : String → Option ProjectInfo)
    (host : String → HostOutcome) (now : Int) (t : String) :
    ∀ (tasks : List OpenGateTask) (st : TaskState) (cache : List (String × ProjectInfo)),
      st.isSpawned t = true →
      t ∉ attemptIds (pollLoop cfg maxC token projEnv host now tasks st cache).effects ∧
      t ∉ requestIds (pollLoop cfg maxC token projEnv host now tasks st cache).effects := by
  intro tasks
  induction tasks with
  | nil =>
    intro st cache h
    simp [pollLoop, attemptIds, requestIds]
  | cons task rest ih =>
    intro st cache h
    rw [pollLoop]
    by_cases hcap : st.activeCount ≥ maxC
    · simp [hcap, attemptIds, requestIds]
    · rw [if_neg hcap]
      by_cases hsp : st.isSpawned task.id = true
      · rw [if_pos hsp]
        exact ih st cache h
      · rw [if_neg hsp]
        have hne : t ≠ task.id := fun heq => hsp (heq ▸ h)
        simp only []
        cases hres : spawnTaskSession task.id
            (buildBootstrapPrompt task cfg.url cfg.apiKey
              (match task.project_id with
               | some pid => resolveProject cache projEnv pid
               | none => (none, cache)).1 cfg.projectsDir)
            cfg token (host task.id) with
        | err msg =>
          have hih := ih st (match task.project_id with
             | some pid => resolveProject cache projEnv pid
             | none => (none, cache)).2 h
          constructor
          · simp only [attemptIds_append, attemptIds_effs, List.mem_append,
              List.mem_singleton]
            rintro (h1 | h2)
            · exact hne h1
            · exact hih.1 h2
          · simp only [requestIds_append, requestIds_effs, List.mem_append]
            rintro (h1 | h2)
            · rcases token with _ | tok
              · simp at h1
              · simp at h1
                exact hne h1
            · exact hih.2 h2
        | ok sk =>
          have hsp1 : (st.markSpawned task.id sk now).isSpawned t = true :=
            isSpawned_markSpawned_mono st t task.id sk now h
          have hih := ih (st.markSpawned task.id sk now)
            (match task.project_id with
             | some pid => resolveProject cache projEnv pid
             | none => (none, cache)).2 hsp1
          constructor
          · simp only [attemptIds_append, attemptIds_effs, attemptIds_marked,
              List.mem_append, List.mem_singleton, List.not_mem_nil]
            rintro ((h1 | h2) | h3)
            · exact hne h1
            · exact h2
            · exact hih.1 h3
          · simp only [requestIds_append, requestIds_effs, requestIds_marked,
              List.mem_append]
            rintro ((h1 | h2) | h3)
            · rcases token with _ | tok
              · simp at h1
              · simp at h1
                exact hne h1
            · simp at h2
            · exact hih.2 h3

/-- With no hooks token the loop changes no state, issues no HTTP spawn
request, and still attempts every not-yet-spawned task of the list (it does
not stop at the first configuration failure). -/
theorem pollLoop_token_none (cfg : OpenGatePluginConfig) (maxC : Nat)
    (projEnv : String → Option ProjectInfo) (host : String → HostOutcome) (now : Int) :
    ∀ (tasks : List OpenGateTask) (st : TaskState) (cache : List (String × ProjectInfo)),
      (pollLoop cfg maxC none projEnv host now tasks st cache).state = st ∧
      requestIds (pollLoop cfg maxC none projEnv host now tasks st cache).effects = [] ∧
      attemptIds (pollLoop cfg maxC none projEnv host now tasks st cache).effects =
        (if maxC ≤ st.activeCount then []
         else (tasks.filter (fun tk => !st.isSpawned tk.id)).map (fun tk => tk.id)) := by
  intro tasks
  induction tasks with
  | nil =>
    intro st cache
    simp [pollLoop, attemptIds, requestIds]
  | cons task rest ih =>
    intro st cache
    rw [pollLoop]
    by_cases hcap : st.activeCount ≥ maxC
    · simp [hcap, attemptIds, requestIds]
    · have hcap' : ¬ maxC ≤ st.activeCount := hcap
      rw [if_neg hcap]
      by_cases hsp : st.isSpawned task.id = true
      · rw [if_pos hsp]
        rcases ih st cache with ⟨h1, h2, h3⟩
        refine ⟨h1, h2, ?_⟩
        rw [h3, if_neg hcap', if_neg hcap', List.filter_cons]
        simp [hsp]
      · rw [if_neg hsp]
        simp only [spawnTaskSession]
        rcases ih st (match task.project_id with
           | some pid => resolveProject cache projEnv pid
           | none => (none, cache)).2 with ⟨h1, h2, h3⟩
        refine ⟨h1, ?_, ?_⟩
        · rw [requestIds_append, requestIds_effs, h2]
          simp
        · rw [attemptIds_append, attemptIds_effs, h3, if_neg hcap', if_neg hcap',
            List.filter_cons]
          simp [hsp]

/-- C1: a task identifier already marked in the Spawn State Store whose
record is within the 24-hour retention window at load is neither attempted
nor sent an HTTP spawn request by an orchestrator cycle, whatever the
fetched inbox contains — the `isSpawned` lookup skips it. -/
theorem no_respawn_within_retention :
    ∀ (file : StateFile) (now : Int) (t : String) (e : StateEntry),
      e ∈ file.spawned → e.taskId = t → now - TTL_MS ≤ e.spawnedAt →
      ∀ (cfg : OpenGatePluginConfig) (token : Option String)
        (cache : List (String × ProjectInfo)) (inbox : InboxOutcome)
        (projEnv : String → Option ProjectInfo) (host : String → HostOutcome),
        t ∉ attemptIds (pollCycle cfg token (TaskState.init (some file) now) cache
              inbox projEnv host now).effects ∧
        t ∉ requestIds (pollCycle cfg token (TaskState.init (some file) now) cache
              inbox projEnv host now).effects := by
  intro file now t e hmem htid hage cfg token cache inbox projEnv host
  have hsp : (TaskState.init (some file) now).isSpawned t = true := by
    rw [isSpawned_init_eq, List.any_eq_true]
    exact ⟨e, hmem, by simp [htid, hage]⟩
  unfold pollCycle
  by_cases hcap : (TaskState.init (some file) now).activeCount ≥ cfg.maxConcurrent.getD 3
  · simp [hcap, attemptIds, requestIds]
  · rw [if_neg hcap]
    cases hfi : fetchInbox inbox with
    | error msg => simp [attemptIds, requestIds]
    | ok tasks =>
      by_cases hlen : (tasks.length == 0) = true
      · simp [hlen, attemptIds, requestIds]
      · simp only [if_neg hlen]
        exact pollLoop_skips_spawned cfg _ token projEnv host now t tasks _ cache hsp

/-- Witness for C1: a fresh record for `t1`, loaded well within the window,
is skipped by a cycle whose inbox contains `t1`. -/
theorem no_respawn_within_retention_witness :
    "t1" ∉ attemptIds (pollCycle sampleCfg (some "tok")
        (TaskState.init (some ⟨[⟨"t1", "sk1", 1000⟩]⟩) 1000) []
        (.response 200 ⟨some [t1Task], none⟩) (fun _ => none) hostAccepts 1000).effects ∧
    "t1" ∉ requestIds (pollCycle sampleCfg (some "tok")
        (TaskState.init (some ⟨[⟨"t1", "sk1", 1000⟩]⟩) 1000) []
        (.response 200 ⟨some [t1Task], none⟩) (fun _ => none) hostAccepts 1000).effects :=
  no_respawn_within_retention ⟨[⟨"t1", "sk1", 1000⟩]⟩ 1000 "t1" ⟨"t1", "sk1", 1000⟩
    (by simp) rfl (by decide) sampleCfg (some "tok") []
    (.response 200 ⟨some [t1Task], none⟩) (fun _ => none) hostAccepts

/-- C2: a cycle that starts at or above the concurrency ceiling issues no
spawn request and leaves everything unchanged; and in the concrete scenario
(ceiling 1, empty store, inbox `[t1, t2]`, host accepting every spawn)
exactly one spawn request is issued, for `t1`, `t1` ends marked spawned and
`t2` is left unspawned for the next cycle. -/
theorem capacity_gate_and_scenario :
    (∀ (cfg : OpenGatePluginConfig) (token : Option String) (st : TaskState)
        (cache : List (String × ProjectInfo)) (inbox : InboxOutcome)
        (projEnv : String → Option ProjectInfo) (host : String → HostOutcome) (now : Int),
        st.activeCount ≥ cfg.maxConcurrent.getD 3 →
        pollCycle cfg token st cache inbox projEnv host now = ⟨st, cache, []⟩) ∧
    (requestIds (pollCycle cfgCeil1 (some "tok") emptyTaskState []
          (.response 200 ⟨some [t1Task, t2Task], none⟩) (fun _ => none)
          hostAccepts 0).effects = ["t1"]
      ∧ attemptIds (pollCycle cfgCeil1 (some "tok") emptyTaskState []
          (.response 200 ⟨some [t1Task, t2Task], none⟩) (fun _ => none)
          hostAccepts 0).effects = ["t1"]
      ∧ (pollCycle cfgCeil1 (some "tok") emptyTaskState []
          (.response 200 ⟨some [t1Task, t2Task], none⟩) (fun _ => none)
          hostAccepts 0).state.isSpawned "t1" = true
      ∧ (pollCycle cfgCeil1 (some "tok") emptyTaskState []
          (.response 200 ⟨some [t1Task, t2Task], none⟩) (fun _ => none)
          hostAccepts 0).state.isSpawned "t2" = false) := by
  constructor
  · intro cfg token st cache inbox projEnv host now h
    unfold pollCycle
    simp [h]
  · exact ⟨by decide, by decide, by decide, by decide⟩

/-- A store holding three live records, i.e. at the default ceiling. -/
def fullTaskState : TaskState := ⟨⟨[⟨"a", "sa", 0⟩, ⟨"b", "sb", 0⟩, ⟨"c", "sc", 0⟩]⟩⟩

/-- Witness for C2: the capacity gate applied to a store at the default
concurrency ceiling of 3. -/
theorem capacity_gate_and_scenario_witness :
    fullTaskState.activeCount ≥ sampleCfg.maxConcurrent.getD 3 ∧
    pollCycle sampleCfg (some "tok") fullTaskState [] (.netError "down") (fun _ => none)
      hostAccepts 0 = ⟨fullTaskState, [], []⟩ :=
  ⟨by decide, capacity_gate_and_scenario.1 sampleCfg (some "tok") fullTaskState []
    (.netError "down") (fun _ => none) hostAccepts 0 (by decide)⟩

/-- C6 counterexample: with the hooks token missing and two eligible inbox
tasks, the first spawn attempt fails with the configuration error and the
cycle still attempts the second task — the configuration failure does not
short-circuit the cycle (no HTTP spawn request is sent for any task, since
`spawnTaskSession` returns before contacting the host). -/
theorem missing_token_cycle_not_shortcircuited :
    attemptIds (pollCycle sampleCfg none emptyTaskState []
        (.response 200 ⟨some [t1Task, t2Task], none⟩) (fun _ => none)
        hostAccepts 0).effects = ["t1", "t2"]
    ∧ spawnTaskSession "t1"
        (buildBootstrapPrompt t1Task sampleCfg.url sampleCfg.apiKey none
          sampleCfg.projectsDir)
        sampleCfg none (hostAccepts "t1") = .err hooksTokenMissingError
    ∧ requestIds (pollCycle sampleCfg none emptyTaskState []
        (.response 200 ⟨some [t1Task, t2Task], none⟩) (fun _ => none)
        hostAccepts 0).effects = [] :=
  ⟨by decide, by decide, by decide⟩

set_option maxRecDepth 4096 in
/-- C6 (amended): a missing hooks token is reported as a configuration
error, a fixed message distinct from every transport-failure message, and
no HTTP spawn request is issued and no task is marked; but the cycle is not
short-circuited — every eligible (not yet spawned) task is still attempted,
each failing with the same configuration error and left for the next cycle. -/
theorem missing_token_config_error_per_task :
    ∀ (cfg : OpenGatePluginConfig) (st : TaskState) (cache : List (String × ProjectInfo))
      (tasks : List OpenGateTask) (projEnv : String → Option ProjectInfo)
      (host : String → HostOutcome) (now : Int),
      (pollCycle cfg none st cache (.response 200 ⟨some tasks, none⟩)
          projEnv host now).state = st ∧
      requestIds (pollCycle cfg none st cache (.response 200 ⟨some tasks, none⟩)
          projEnv host now).effects = [] ∧
      attemptIds (pollCycle cfg none st cache (.response 200 ⟨some tasks, none⟩)
          projEnv host now).effects
        = (if cfg.maxConcurrent.getD 3 ≤ st.activeCount then []
           else (tasks.filter (fun tk => !st.isSpawned tk.id)).map (fun tk => tk.id)) ∧
      (∀ (tid msg : String) (h : HostOutcome),
        spawnTaskSession tid msg cfg none h = .err hooksTokenMissingError) ∧
      (∀ m : String,
        hooksTokenMissingError ≠ "[opengate] failed to reach hooks/agent: " ++ m) := by
  intro cfg st cache tasks projEnv host now
  have hfetch : fetchInbox (.response 200 ⟨some tasks, none⟩) = .ok tasks := rfl
  refine ⟨?_, ?_, ?_, fun tid msg h => rfl, ?_⟩
  · unfold pollCycle
    by_cases hcap : st.activeCount ≥ cfg.maxConcurrent.getD 3
    · simp [hcap]
    · rw [if_neg hcap]; simp only [hfetch]
      by_cases hlen : (tasks.length == 0) = true
      · simp [hlen]
      · simp only [if_neg hlen]
        exact (pollLoop_token_none cfg _ projEnv host now tasks st cache).1
  · unfold pollCycle
    by_cases hcap : st.activeCount ≥ cfg.maxConcurrent.getD 3
    · simp [hcap, requestIds]
    · rw [if_neg hcap]; simp only [hfetch]
      by_cases hlen : (tasks.length == 0) = true
      · simp [hlen, requestIds]
      · simp only [if_neg hlen]
        exact (pollLoop_token_none cfg _ projEnv host now tasks st cache).2.1
  · unfold pollCycle
    by_cases hcap : st.activeCount ≥ cfg.maxConcurrent.getD 3
    · have hcap' : cfg.maxConcurrent.getD 3 ≤ st.activeCount := hcap
      simp [hcap, hcap', attemptIds]
    · have hcap' : ¬ cfg.maxConcurrent.getD 3 ≤ st.activeCount := hcap
      rw [if_neg hcap]; simp only [hfetch]
      by_cases hlen : (tasks.length == 0) = true
      · have htasks : tasks = [] := by simpa using hlen
        subst htasks
        simp [attemptIds, hcap']
      · simp only [if_neg hlen]
        rw [(pollLoop_token_none cfg _ projEnv host now tasks st cache).2.2, if_neg hcap']
  · intro m hcontra
    have hd := congrArg String.data hcontra
    rw [String.data_append] at hd
    have h11 := congrArg (fun l => l[11]?) hd
    simp only [] at h11
    rw [List.getElem?_append_left (by decide)] at h11
    exact absurd h11 (by decide)

/-- Witness for C6 (amended): the unchanged store at a concrete
missing-token cycle. -/
theorem missing_token_config_error_per_task_witness :
    (pollCycle sampleCfg none emptyTaskState []
        (.response 200 ⟨some [t2Task], none⟩) (fun _ => none) hostAccepts 0).state
      = emptyTaskState :=
  (missing_token_config_error_per_task sampleCfg emptyTaskState [] [t2Task]
    (fun _ => none) hostAccepts 0).1

/-- The backoff invariant of every reachable client state: the delay lies
between the floor (1000 ms) and the ceiling (60000 ms). -/
def WsInv (s : WsState) : Prop :=
  INITIAL_BACKOFF_MS ≤ s.backoffMs ∧ s.backoffMs ≤ MAX_BACKOFF_MS

/-- A freshly constructed client satisfies the backoff invariant. -/
theorem wsInv_initial : WsInv WsState.initial :=
  ⟨by decide, by decide⟩

/-- `reconnectDelays` distributes over effect-list concatenation. -/
theorem reconnectDelays_append (l1 l2 : List WsEffect) :
    reconnectDelays (l1 ++ l2) = reconnectDelays l1 ++ reconnectDelays l2 :=
  List.filterMap_append l1 l2 _

/-- The close handler never changes the backoff delay. -/
theorem wsStep_fst_backoff_closed (s : WsState) (c : Nat) :
    (wsStep s (WsEvent.closed c)).1.backoffMs = s.backoffMs := by
  simp only [wsStep, scheduleReconnect, wsCleanup]
  split
  · rfl
  · split <;> rfl

/-- Every event handler preserves the backoff invariant. -/
theorem wsStep_preserves_inv (s : WsState) (e : WsEvent) (h : WsInv s) :
    WsInv (wsStep s e).1 := by
  obtain ⟨h1, h2⟩ := h
  cases e with
  | opened =>
    refine ⟨?_, ?_⟩
    · show INITIAL_BACKOFF_MS ≤ INITIAL_BACKOFF_MS
      exact le_refl _
    · show INITIAL_BACKOFF_MS ≤ MAX_BACKOFF_MS
      decide
  | message p =>
    cases p with
    | none => exact ⟨h1, h2⟩
    | some ev =>
      simp only [wsStep]
      split <;> exact ⟨h1, h2⟩
  | closed c =>
    refine ⟨?_, ?_⟩ <;> rw [wsStep_fst_backoff_closed] <;> assumption
  | errored =>
    simp only [wsStep, scheduleReconnect, wsCleanup]
    split
    · exact ⟨h1, h2⟩
    · split <;> exact ⟨h1, h2⟩
  | reconnectFire =>
    simp only [wsStep, wsConnect]
    have hlo : INITIAL_BACKOFF_MS ≤ min (s.backoffMs * BACKOFF_MULTIPLIER) MAX_BACKOFF_MS := by
      refine le_min ?_ (by decide)
      calc INITIAL_BACKOFF_MS ≤ s.backoffMs := h1
        _ ≤ s.backoffMs * BACKOFF_MULTIPLIER := by
            have : (1 : Nat) ≤ BACKOFF_MULTIPLIER := by decide
            calc s.backoffMs = s.backoffMs * 1 := (Nat.mul_one _).symm
              _ ≤ s.backoffMs * BACKOFF_MULTIPLIER := Nat.mul_le_mul_left _ this
    have hhi : min (s.backoffMs * BACKOFF_MULTIPLIER) MAX_BACKOFF_MS ≤ MAX_BACKOFF_MS :=
      min_le_right _ _
    split <;> exact ⟨hlo, hhi⟩
  | pingFire => exact ⟨h1, h2⟩

/-- Without a successful connection, no event handler decreases the
backoff delay. -/
theorem wsStep_backoff_mono (s : WsState) (e : WsEvent) (hne : e ≠ WsEvent.opened)
    (h2 : s.backoffMs ≤ MAX_BACKOFF_MS) :
    s.backoffMs ≤ (wsStep s e).1.backoffMs := by
  cases e with
  | opened => exact absurd rfl hne
  | message p =>
    cases p with
    | none => exact le_refl _
    | some ev =>
      simp only [wsStep]
      split <;> exact le_refl _
  | closed c => rw [wsStep_fst_backoff_closed]
  | errored =>
    simp only [wsStep, scheduleReconnect, wsCleanup]
    split
    · exact le_refl _
    · split <;> exact le_refl _
  | reconnectFire =>
    simp only [wsStep, wsConnect]
    have : s.backoffMs ≤ min (s.backoffMs * BACKOFF_MULTIPLIER) MAX_BACKOFF_MS := by
      refine le_min ?_ h2
      have : (1 : Nat) ≤ BACKOFF_MULTIPLIER := by decide
      calc s.backoffMs = s.backoffMs * 1 := (Nat.mul_one _).symm
        _ ≤ s.backoffMs * BACKOFF_MULTIPLIER := Nat.mul_le_mul_left _ this
    split <;> exact this
  | pingFire => exact le_refl _

/-- One step schedules at most one reconnection, and always at the current
backoff delay. -/
theorem wsStep_delays (s : WsState) (e : WsEvent) :
    reconnectDelays (wsStep s e).2 = []
    ∨ reconnectDelays (wsStep s e).2 = [s.backoffMs] := by
  cases e with
  | opened => left; rfl
  | message p =>
    cases p with
    | none => left; rfl
    | some ev =>
      simp only [wsStep]
      split <;> left <;> rfl
  | closed c =>
    simp only [wsStep, scheduleReconnect, wsCleanup]
    split
    · left; rfl
    · split
      · left; rfl
      · right; rfl
  | errored =>
    simp only [wsStep, scheduleReconnect, wsCleanup]
    split
    · left; rfl
    · split
      · left; rfl
      · right; rfl
  | reconnectFire =>
    simp only [wsStep, wsConnect]
    split <;> left <;> rfl
  | pingFire =>
    simp only [wsStep]
    split <;> left <;> rfl

/-- Along any event trace without a successful connection, the scheduled
reconnect delays start at or above the current backoff, never exceed the
ceiling, and are pairwise non-decreasing. -/
theorem runEvents_delays (tr : List WsEvent) :
    ∀ s : WsState, WsInv s → noOpenEvent tr = true →
      (∀ d ∈ reconnectDelays (runEvents s tr).2,
        s.backoffMs ≤ d ∧ d ≤ MAX_BACKOFF_MS) ∧
      List.Pairwise (· ≤ ·) (reconnectDelays (runEvents s tr).2) ∧
      s.backoffMs ≤ (runEvents s tr).1.backoffMs ∧ WsInv (runEvents s tr).1 := by
  induction tr with
  | nil =>
    intro s hInv _
    simp only [runEvents, reconnectDelays, List.filterMap_nil]
    exact ⟨by simp, by simp, le_refl _, hInv⟩
  | cons e es ih =>
    intro s hInv hno
    have hne : e ≠ WsEvent.opened := by
      intro h
      subst h
      simp [noOpenEvent] at hno
    have hno' : noOpenEvent es = true := by
      have := hno
      simp only [noOpenEvent, List.all_cons, Bool.and_eq_true] at this
      exact this.2
    have hInv1 := wsStep_preserves_inv s e hInv
    have hmono := wsStep_backoff_mono s e hne hInv.2
    obtain ⟨ihb, ihp, ihm, ihInv⟩ := ih (wsStep s e).1 hInv1 hno'
    rw [runEvents]
    simp only [reconnectDelays_append]
    have hd1 := wsStep_delays s e
    refine ⟨?_, ?_, le_trans hmono ihm, ihInv⟩
    · intro d hd
      rcases List.mem_append.mp hd with hmem | hmem
      · rcases hd1 with h0 | h0 <;> rw [h0] at hmem
        · simp at hmem
        · have hdd : d = s.backoffMs := by simpa using hmem
          rw [hdd]
          exact ⟨le_refl _, hInv.2⟩
      · have := ihb d hmem
        exact ⟨le_trans hmono this.1, this.2⟩
    · rw [List.pairwise_append]
      refine ⟨?_, ihp, ?_⟩
      · rcases hd1 with h0 | h0 <;> rw [h0]
        · exact List.Pairwise.nil
        · simp
      · intro a ha b hb
        rcases hd1 with h0 | h0 <;> rw [h0] at ha
        · simp at ha
        · have haeq : a = s.backoffMs := by simpa using ha
          have hbb := ihb b hb
          rw [haeq]
          exact le_trans hmono hbb.1

/-- C3: across any sequence of connection failures with no intervening
successful connection, the scheduled reconnect delays are monotonically
non-decreasing and each lies between the 1000 ms floor and the 60000 ms
ceiling; the backoff invariant holds initially and is preserved by every
handler; and the open handler resets the backoff to the floor. -/
theorem ws_backoff_monotone_bounded :
    (∀ (s : WsState) (tr : List WsEvent), WsInv s → noOpenEvent tr = true →
        List.Pairwise (· ≤ ·) (reconnectDelays (runEvents s tr).2) ∧
        ∀ d ∈ reconnectDelays (runEvents s tr).2,
          INITIAL_BACKOFF_MS ≤ d ∧ d ≤ MAX_BACKOFF_MS) ∧
    (∀ (s : WsState) (e : WsEvent), WsInv s → WsInv (wsStep s e).1) ∧
    WsInv WsState.initial ∧
    (∀ s : WsState, (wsStep s WsEvent.opened).1.backoffMs = INITIAL_BACKOFF_MS) := by
  refine ⟨?_, wsStep_preserves_inv, wsInv_initial, fun s => rfl⟩
  intro s tr hInv hno
  obtain ⟨hb, hp, _, _⟩ := runEvents_delays tr s hInv hno
  exact ⟨hp, fun d hd => ⟨le_trans hInv.1 (hb d hd).1, (hb d hd).2⟩⟩

/-- C3: across any sequence of connection failures with no intervening
successful connection, the scheduled reconnect delays are monotonically
non-decreasing and each lies between the 1000 ms floor and the 60000 ms
ceiling; the backoff invariant holds initially and is preserved by every
handler; and the open handler resets the backoff to the floor. -/
theorem ws_backoff_monotone_bounded_witness :
    WsInv ⟨true, 1000, false, false, true⟩ ∧
    (List.Pairwise (· ≤ ·) (reconnectDelays (runEvents ⟨true, 1000, false, false, true⟩
        [WsEvent.errored, WsEvent.reconnectFire, WsEvent.errored]).2) ∧
      ∀ d ∈ reconnectDelays (runEvents ⟨true, 1000, false, false, true⟩
        [WsEvent.errored, WsEvent.reconnectFire, WsEvent.errored]).2,
        INITIAL_BACKOFF_MS ≤ d ∧ d ≤ MAX_BACKOFF_MS) :=
  ⟨⟨by decide, by decide⟩,
    ws_backoff_monotone_bounded.1 ⟨true, 1000, false, false, true⟩
      [WsEvent.errored, WsEvent.reconnectFire, WsEvent.errored]
      ⟨by decide, by decide⟩ (by decide)⟩

/-- From a state with no connection handle and no armed timer, no event
can fire: the only valid trace is empty. -/
theorem stopped_trace_nil (s : WsState) (h1 : s.hasWs = false)
    (h2 : s.reconnectTimer = false) (h3 : s.pingTimer = false) :
    ∀ tr : List WsEvent, ValidTrace s tr = true → tr = [] := by
  intro tr h
  cases tr with
  | nil => rfl
  | cons e es =>
    exfalso
    rw [ValidTrace, Bool.and_eq_true] at h
    cases e <;> simp [canFire, h1, h2, h3] at h

/-- C4: `stop()` on either transport is idempotent — a second call changes
nothing and emits no effect — and after `stop()` no event can fire, so no
handler invocation and no reconnection attempt occurs; in particular a
reconnect scheduled by a close with code 1006 is cancelled by `stop()`
before it fires, and no connection attempt ever follows. -/
theorem stop_idempotent_no_callbacks :
    (∀ s : WsState, wsStop (wsStop s).1 = ((wsStop s).1, [])) ∧
    (∀ p : PollerLifecycle, pollerStop (pollerStop p).1 = ((pollerStop p).1, [])) ∧
    (∀ (s : WsState) (tr : List WsEvent),
        ValidTrace (wsStop s).1 tr = true → (runEvents (wsStop s).1 tr).2 = []) ∧
    (∀ s : WsState, s.running = true → s.reconnectTimer = false →
        reconnectDelays (wsStep s (WsEvent.closed 1006)).2 = [s.backoffMs] ∧
        ∀ tr : List WsEvent,
          ValidTrace (wsStop (wsStep s (WsEvent.closed 1006)).1).1 tr = true →
          WsEffect.connectAttempt ∉
            (runEvents (wsStop (wsStep s (WsEvent.closed 1006)).1).1 tr).2) := by
  refine ⟨fun s => rfl, fun p => rfl, ?_, ?_⟩
  · intro s tr h
    have := stopped_trace_nil (wsStop s).1 rfl rfl rfl tr h
    rw [this]
    rfl
  · intro s hrun htimer
    constructor
    · simp [wsStep, wsCleanup, scheduleReconnect, hrun, htimer, reconnectDelays]
    · intro tr h
      have := stopped_trace_nil (wsStop (wsStep s (WsEvent.closed 1006)).1).1
        rfl rfl rfl tr h
      rw [this]
      simp [runEvents]

/-- C4: `stop()` on either transport is idempotent — a second call changes
nothing and emits no effect — and after `stop()` no event can fire, so no
handler invocation and no reconnection attempt occurs; in particular a
reconnect scheduled by a close with code 1006 is cancelled by `stop()`
before it fires, and no connection attempt ever follows. -/
theorem stop_idempotent_no_callbacks_witness :
    (wsStop (wsStop ⟨true, 2000, true, true, true⟩).1
        = ((wsStop ⟨true, 2000, true, true, true⟩).1, [])) ∧
    (runEvents (wsStop ⟨true, 2000, false, false, true⟩).1 []).2 = [] ∧
    reconnectDelays (wsStep ⟨true, 2000, false, false, true⟩ (WsEvent.closed 1006)).2
      = [2000] ∧
    (pollerStop (pollerStop ⟨true, true⟩).1 = ((pollerStop ⟨true, true⟩).1, [])) :=
  ⟨stop_idempotent_no_callbacks.1 ⟨true, 2000, true, true, true⟩,
    stop_idempotent_no_callbacks.2.2.1 ⟨true, 2000, false, false, true⟩ [] (by decide),
    (stop_idempotent_no_callbacks.2.2.2 ⟨true, 2000, false, false, true⟩ rfl rfl).1,
    stop_idempotent_no_callbacks.2.1 ⟨true, true⟩⟩
